import Mathlib

/-!
Verification of the sales-lead CRM core logic.

This development embeds the logic-bearing functions of the repository:

* `sales_lead.py` — the weighted lead-score function `lead_score_weighted`,
  the status/stage tables, and the random status/stage pair generator;
* `update_sales_lead.py` — the batch audit diff/merge function `update_document`;
* `streamlit_app.py` (edit-form submission block) — the per-field audit
  diff/merge loop, called `apply_edit` here after the spec's name for it.

Randomness is modelled by passing each random draw explicitly:
the `random.randint(20, 50)` base of the score as `base : ℤ`, the
`random.choice(choices)` of the pair generator as an index into the
choices list, and the draws used by `update_document` as parameters.
Python numbers are modelled as `ℚ` (exact arithmetic) and `ℤ`; Python's
`int()` truncation toward zero is `pyInt`.  Python dicts holding the
audit history are modelled as functions `String → Option AuditEntry`.
-/

namespace SalesCRM

/-- Numbers `LEAD_STATUSES` list from `sales_lead.py` (the five status strings). -/
def LEAD_STATUSES : List String :=
  ["Prospect", "Qualified", "Negotiation", "Won", "Lost"]

/-- Numbers `STATUS_PIPELINE_MAPPING` dict from `sales_lead.py`: which pipeline
stages each lead status permits; a key absent from the dict gives `[]`. -/
def STATUS_PIPELINE_MAPPING (status : String) : List String :=
  if status = "Prospect" then
    ["Discovery", "Proposal Sent", "Contract Sent", "Negotiation"]
  else if status = "Qualified" then
    ["Discovery", "Proposal Sent", "Contract Sent", "Negotiation"]
  else if status = "Negotiation" then
    ["Proposal Sent", "Contract Sent", "Negotiation"]
  else if status = "Won" then
    ["Closed Won"]
  else if status = "Lost" then
    ["Closed Lost"]
  else []

/-- Numbers `STATUS_SCORES.get(lead_status, 0)` from `sales_lead.py`. -/
def statusScoresGet (lead_status : String) : ℤ :=
  if lead_status = "Won" then 25
  else if lead_status = "Negotiation" then 15
  else if lead_status = "Qualified" then 10
  else if lead_status = "Prospect" then 5
  else if lead_status = "Lost" then -10
  else 0

/-- Numbers `PIPELINE_SCORES.get(pipeline_stage, 0)` from `sales_lead.py`. -/
def pipelineScoresGet (pipeline_stage : String) : ℤ :=
  if pipeline_stage = "Closed Won" then 25
  else if pipeline_stage = "Contract Sent" then 15
  else if pipeline_stage = "Proposal Sent" then 10
  else if pipeline_stage = "Discovery" then 5
  else if pipeline_stage = "Closed Lost" then -10
  else if pipeline_stage = "Negotiation" then 20
  else 0

/-- Python's `int()` applied to an exact rational: truncation toward zero. -/
def pyInt (q : ℚ) : ℤ := if q < 0 then ⌈q⌉ else ⌊q⌋

/-- Function `lead_score_weighted` from `sales_lead.py`, with the
`random.randint(20, 50)` base draw passed explicitly as `base`:

    score = random.randint(20, 50)
    deal_score = min(last_deal_size / 166666, 30)
    score += deal_score
    if lead_status in (LeadStatus.WON, LeadStatus.LOST):
        return 0
    score += STATUS_SCORES.get(lead_status, 0)
    score += PIPELINE_SCORES.get(pipeline_stage, 0)
    if crm_active:
        score += 10
    return min(max(int(score), 0), 100)
-/
def lead_score_weighted (base : ℤ) (last_deal_size : ℚ)
    (lead_status pipeline_stage : String) (crm_active : Bool) : ℤ :=
  let score : ℚ := (base : ℚ)
  let deal_score : ℚ := min (last_deal_size / 166666) 30
  let score : ℚ := score + deal_score
  if lead_status = "Won" ∨ lead_status = "Lost" then 0
  else
    let score : ℚ := score + (statusScoresGet lead_status : ℚ)
    let score : ℚ := score + (pipelineScoresGet pipeline_stage : ℚ)
    let score : ℚ := if crm_active then score + 10 else score
    min (max (pyInt score) 0) 100

/-- Numbers the `choices` list that `random_lead_status_and_pipeline_stage`
in `sales_lead.py` builds with its nested loop over `LEAD_STATUSES` and
`STATUS_PIPELINE_MAPPING[status]`. -/
def statusStageChoices : List (String × String) :=
  LEAD_STATUSES.flatMap fun status =>
    (STATUS_PIPELINE_MAPPING status).map fun stage => (status, stage)

/-- Function `random_lead_status_and_pipeline_stage` from `sales_lead.py`;
`random.choice(choices)` is modelled by the explicit uniformly drawn index. -/
def random_lead_status_and_pipeline_stage
    (i : Fin statusStageChoices.length) : String × String :=
  statusStageChoices.get i

/-- Status-points table exactly as the spec's §4.1 step 4 words it:
Negotiation +15, Qualified +10, Prospect +5, absent status +0
(Won/Lost excluded by the short-circuit). -/
def specStatusPoints (status : String) : ℤ :=
  if status = "Negotiation" then 15
  else if status = "Qualified" then 10
  else if status = "Prospect" then 5
  else 0

/-- Stage-points table exactly as the spec's §4.1 step 5 words it. -/
def specStagePoints (stage : String) : ℤ :=
  if stage = "Closed Won" then 25
  else if stage = "Contract Sent" then 15
  else if stage = "Negotiation" then 20
  else if stage = "Proposal Sent" then 10
  else if stage = "Discovery" then 5
  else if stage = "Closed Lost" then -10
  else 0

/-- Clamp to the integer range [0, 100], as the spec's §4.1 step 7 words it. -/
def specClamp (n : ℤ) : ℤ := min (max n 0) 100

/-- Valid (status, stage) table exactly as the spec's §4.2 enumerates it. -/
def specValidPairs : List (String × String) :=
  [("Prospect", "Discovery"), ("Prospect", "Proposal Sent"),
   ("Prospect", "Contract Sent"), ("Prospect", "Negotiation"),
   ("Qualified", "Discovery"), ("Qualified", "Proposal Sent"),
   ("Qualified", "Contract Sent"), ("Qualified", "Negotiation"),
   ("Negotiation", "Proposal Sent"), ("Negotiation", "Contract Sent"),
   ("Negotiation", "Negotiation"),
   ("Won", "Closed Won"), ("Lost", "Closed Lost")]

-- Audit diff/merge data model ----------------------------------------------

/-- Dynamically typed field values, as stored in the Python documents. -/
inductive JValue where
  | vStr : String → JValue
  | vInt : ℤ → JValue
  | vRat : ℚ → JValue
  | vBool : Bool → JValue
  | vNull : JValue
deriving DecidableEq

/-- One audit-history record: `{"old_value": ..., "audit_date": ...}`. -/
structure AuditEntry where
  old_value : JValue
  audit_date : String
deriving DecidableEq

/-- The `old_data` dict: a map from field name to its most recent entry. -/
abbrev History := String → Option AuditEntry

/-- Overwriting insertion `old_data[field_name] = entry` on the history dict. -/
def writeEntry (h : History) (field_name : String) (e : AuditEntry) : History :=
  fun k => if k = field_name then some e else h k

/-- Numbers the `for field_name, (new_value, old_value) in fields_to_check.items()`
loop of `streamlit_app.py` (lines 932-939): walk the field list, and for every
field whose new value differs write an audit entry and set `changed = True`. -/
def auditFold (audit_date : String) (fields : List (String × JValue × JValue))
    (acc : History × Bool) : History × Bool :=
  match fields with
  | [] => acc
  | fld :: rest =>
      auditFold audit_date rest
        (if fld.2.1 ≠ fld.2.2 then
          (writeEntry acc.1 fld.1 ⟨fld.2.2, audit_date⟩, true)
        else acc)

/-- Stored sales-lead record as the streamlit edit form sees it: every
tracked mutable attribute plus the derived `high_priority_flag`. -/
structure Lead where
  company_name : String
  primary_market_region : String
  market_cap_usd : ℚ
  annual_sales_usd : ℚ
  number_of_customers : ℤ
  sales_contact_name : String
  sales_contact_email : String
  date_of_last_contact : String
  lead_source : String
  crm_activity_flag : Bool
  lead_status : String
  pipeline_stage : String
  last_deal_size_usd : ℚ
  lead_score : ℤ
  notes : String
  quarter : String
  high_priority_flag : Bool
deriving DecidableEq

/-- Proposed new values supplied by the edit form (everything except the
score, which the form recomputes itself, and the derived flag). -/
structure ProposedFields where
  company_name : String
  primary_market_region : String
  market_cap_usd : ℚ
  annual_sales_usd : ℚ
  number_of_customers : ℤ
  sales_contact_name : String
  sales_contact_email : String
  date_of_last_contact : String
  lead_source : String
  crm_activity_flag : Bool
  lead_status : String
  pipeline_stage : String
  last_deal_size_usd : ℚ
  notes : String
  quarter : String
deriving DecidableEq

/-- Numbers the `fields_to_check` dict of `streamlit_app.py` (lines 878-925),
in source order: field name, new value, current value. -/
def fields_to_check (p : ProposedFields) (new_lead_score : ℤ) (sl : Lead) :
    List (String × JValue × JValue) :=
  [("company_name", .vStr p.company_name, .vStr sl.company_name),
   ("primary_market_region", .vStr p.primary_market_region, .vStr sl.primary_market_region),
   ("market_cap_usd", .vRat p.market_cap_usd, .vRat sl.market_cap_usd),
   ("annual_sales_usd", .vRat p.annual_sales_usd, .vRat sl.annual_sales_usd),
   ("number_of_customers", .vInt p.number_of_customers, .vInt sl.number_of_customers),
   ("sales_contact_name", .vStr p.sales_contact_name, .vStr sl.sales_contact_name),
   ("sales_contact_email", .vStr p.sales_contact_email, .vStr sl.sales_contact_email),
   ("date_of_last_contact", .vStr p.date_of_last_contact, .vStr sl.date_of_last_contact),
   ("lead_source", .vStr p.lead_source, .vStr sl.lead_source),
   ("crm_activity_flag", .vBool p.crm_activity_flag, .vBool sl.crm_activity_flag),
   ("lead_status", .vStr p.lead_status, .vStr sl.lead_status),
   ("pipeline_stage", .vStr p.pipeline_stage, .vStr sl.pipeline_stage),
   ("last_deal_size_usd", .vRat p.last_deal_size_usd, .vRat sl.last_deal_size_usd),
   ("lead_score", .vInt new_lead_score, .vInt sl.lead_score),
   ("notes", .vStr p.notes, .vStr sl.notes),
   ("quarter", .vStr p.quarter, .vStr sl.quarter)]

/-- Score recomputed by the edit form from the proposed values
(`streamlit_app.py` lines 869-874), with the base draw explicit. -/
def newScore (p : ProposedFields) (base : ℤ) : ℤ :=
  lead_score_weighted base p.last_deal_size_usd p.lead_status p.pipeline_stage
    p.crm_activity_flag

/-- Updated document built by the edit form when a change was detected
(`streamlit_app.py` lines 947-978): every field replaced by its proposed
value, the score by the recomputed score, and the high-priority flag
recomputed as `new_lead_score is not None and new_lead_score >= 80`
(the recomputed score is never `None`, so only the comparison remains). -/
def updatedLead (p : ProposedFields) (new_lead_score : ℤ) : Lead :=
  { company_name := p.company_name,
    primary_market_region := p.primary_market_region,
    market_cap_usd := p.market_cap_usd,
    annual_sales_usd := p.annual_sales_usd,
    number_of_customers := p.number_of_customers,
    sales_contact_name := p.sales_contact_name,
    sales_contact_email := p.sales_contact_email,
    date_of_last_contact := p.date_of_last_contact,
    lead_source := p.lead_source,
    crm_activity_flag := p.crm_activity_flag,
    lead_status := p.lead_status,
    pipeline_stage := p.pipeline_stage,
    last_deal_size_usd := p.last_deal_size_usd,
    lead_score := new_lead_score,
    notes := p.notes,
    quarter := p.quarter,
    high_priority_flag := decide (new_lead_score ≥ 80) }

/-- The audit diff/merge operation of the streamlit edit form
(`streamlit_app.py` lines 864-991), the spec's `apply_edit`: recompute the
score, diff all tracked fields against the current lead writing audit
entries, and either build the fully replaced lead (changed) or leave the
lead and history untouched (no change detected). -/
def apply_edit (sl : Lead) (p : ProposedFields) (base : ℤ) (old_data : History)
    (audit_date : String) : Lead × History × Bool :=
  let new_lead_score := newScore p base
  let r := auditFold audit_date (fields_to_check p new_lead_score sl) (old_data, false)
  if r.2 then (updatedLead p new_lead_score, r.1, true)
  else (sl, old_data, false)

-- update_sales_lead.py model -------------------------------------------------

/-- Stored `doc["sales_lead"]` sub-dict as `update_document` reads it: every
field is optional because the code reads them with `.get`. -/
structure SalesLeadRec where
  lead_status : Option String
  pipeline_stage : Option String
  notes : Option String
  lead_score : Option ℤ
  last_deal_size_usd : Option ℚ
  crm_activity_flag : Option Bool
  high_priority_flag : Option Bool
deriving DecidableEq

/-- A stored document: the optional `sales_lead` sub-dict and the audit
history (`doc.get("old_data", {})`, modelled directly as the map). -/
structure CouchDoc where
  sales_lead : Option SalesLeadRec
  old_data : History

/-- Python value of an optional string field (`None` becomes JSON null). -/
def optStrVal : Option String → JValue
  | none => .vNull
  | some s => .vStr s

/-- Running state of `update_document`: the sales-lead record being edited
in place, the history dict, and the `changed` flag. -/
structure UDState where
  sl : SalesLeadRec
  old_data : History
  changed : Bool

/-- Numbers the `lead_status and pipeline_stage` block of
`update_sales_lead.py` (lines 38-52): if either member of the freshly drawn
pair differs, write history entries for BOTH fields and store both. -/
def statusStep (new_status new_pipeline : String) (audit_date : String)
    (s : UDState) : UDState :=
  if some new_status ≠ s.sl.lead_status ∨ some new_pipeline ≠ s.sl.pipeline_stage then
    { sl := { s.sl with
                lead_status := some new_status,
                pipeline_stage := some new_pipeline },
      old_data :=
        writeEntry
          (writeEntry s.old_data "lead_status"
            ⟨optStrVal s.sl.lead_status, audit_date⟩)
          "pipeline_stage" ⟨optStrVal s.sl.pipeline_stage, audit_date⟩,
      changed := true }
  else s

/-- Numbers the `notes` block of `update_sales_lead.py` (lines 54-60). -/
def notesStep (new_note : String) (audit_date : String) (s : UDState) : UDState :=
  if some new_note ≠ s.sl.notes then
    { sl := { s.sl with notes := some new_note },
      old_data := writeEntry s.old_data "notes" ⟨optStrVal s.sl.notes, audit_date⟩,
      changed := true }
  else s

/-- Numbers the `lead_score` block of `update_sales_lead.py` (lines 62-73):
recompute the score from the drawn pair and the stored deal size / CRM flag
(defaults 0 / False), diff it against the stored score (default 0). -/
def scoreStep (new_status new_pipeline : String) (base : ℤ) (audit_date : String)
    (s : UDState) : UDState :=
  let current_score := s.sl.lead_score.getD 0
  let new_score := lead_score_weighted base (s.sl.last_deal_size_usd.getD 0)
    new_status new_pipeline (s.sl.crm_activity_flag.getD false)
  if new_score ≠ current_score then
    { sl := { s.sl with lead_score := some new_score },
      old_data := writeEntry s.old_data "lead_score"
        ⟨.vInt current_score, audit_date⟩,
      changed := true }
  else s

/-- Function `update_document` from `update_sales_lead.py`, with the random
draws passed explicitly (the status/stage pair, the note, and the score
base).  Line 76 reads `doc["sales_lead"]["lead_score"]` unconditionally, a
`KeyError` when the key is absent, modelled by the `Except` error case. -/
def update_document (doc : CouchDoc) (draw : String × String) (new_note : String)
    (base : ℤ) (audit_date : String) : Except String (CouchDoc × Bool) :=
  match doc.sales_lead with
  | none => .ok (doc, false)
  | some sl0 =>
    let s1 := statusStep draw.1 draw.2 audit_date ⟨sl0, doc.old_data, false⟩
    let s2 := notesStep new_note audit_date s1
    let s3 := scoreStep draw.1 draw.2 base audit_date s2
    match s3.sl.lead_score with
    | none => .error "KeyError: lead_score"
    | some sc =>
      let sl4 := { s3.sl with high_priority_flag := some (decide (sc ≥ 80)) }
      if s3.changed then
        .ok ({ doc with sales_lead := some sl4, old_data := s3.old_data }, true)
      else
        .ok ({ doc with sales_lead := some sl4 }, false)

/-- The three in-place edit blocks of `update_document` in source order,
as one state transformer (the body of `update_document` between line 35
and line 74). -/
def udSteps (sl : SalesLeadRec) (H : History) (new_status new_pipeline note : String)
    (base : ℤ) (audit_date : String) : UDState :=
  scoreStep new_status new_pipeline base audit_date
    (notesStep note audit_date
      (statusStep new_status new_pipeline audit_date ⟨sl, H, false⟩))

-- Projections used to state concrete counterexamples -------------------------

/-- Changed flag of an `update_document` run, if it returned. -/
def docChanged (r : Except String (CouchDoc × Bool)) : Option Bool :=
  match r with
  | .ok (_, c) => some c
  | .error _ => none

/-- Sales-lead record of an `update_document` run's document, if any. -/
def docLead (r : Except String (CouchDoc × Bool)) : Option SalesLeadRec :=
  match r with
  | .ok (d, _) => d.sales_lead
  | .error _ => none

/-- History lookup on an `update_document` run's document. -/
def docHistoryAt (r : Except String (CouchDoc × Bool)) (k : String) :
    Option AuditEntry :=
  match r with
  | .ok (d, _) => d.old_data k
  | .error _ => none

/-- The empty audit history. -/
def emptyHistory : History := fun _ => none

-- Concrete documents for the counterexamples and witnesses --------------------

/-- Stored record used for the C4 counterexample: status `Prospect` at stage
`Discovery`, score already equal to what the diff will recompute. -/
def exSL4 : SalesLeadRec :=
  { lead_status := some "Prospect",
    pipeline_stage := some "Discovery",
    notes := some "Sent proposal, pending approval.",
    lead_score := some 35,
    last_deal_size_usd := some 0,
    crm_activity_flag := some false,
    high_priority_flag := some false }

/-- Document wrapping `exSL4` with an empty history. -/
def exDoc4 : CouchDoc := { sales_lead := some exSL4, old_data := emptyHistory }

/-- Stored record used for the C6 counterexample: a closed Won lead whose
stored values all equal the incoming draw, but whose high-priority flag is
stored inconsistently with its score. -/
def exSL6 : SalesLeadRec :=
  { lead_status := some "Won",
    pipeline_stage := some "Closed Won",
    notes := some "Negotiations ongoing, positive signs.",
    lead_score := some 0,
    last_deal_size_usd := some 0,
    crm_activity_flag := some false,
    high_priority_flag := some true }

/-- Document wrapping `exSL6` with an empty history. -/
def exDoc6 : CouchDoc := { sales_lead := some exSL6, old_data := emptyHistory }

/-- Expected record after the C4 counterexample run: the pipeline stage moved
to `Proposal Sent`, everything else (including the status) unchanged. -/
def exSL4res : SalesLeadRec :=
  { lead_status := some "Prospect",
    pipeline_stage := some "Proposal Sent",
    notes := some "Sent proposal, pending approval.",
    lead_score := some 35,
    last_deal_size_usd := some 0,
    crm_activity_flag := some false,
    high_priority_flag := some false }

/-- Expected document after the C4 counterexample run: history entries for
BOTH `lead_status` and `pipeline_stage`, though only the stage changed. -/
def exDoc4res : CouchDoc :=
  { sales_lead := some exSL4res,
    old_data :=
      writeEntry
        (writeEntry emptyHistory "lead_status"
          ⟨.vStr "Prospect", "2025-06-30T00:00:00Z"⟩)
        "pipeline_stage" ⟨.vStr "Discovery", "2025-06-30T00:00:00Z"⟩ }

/-- Expected record after the C6 counterexample run: identical to `exSL6`
except that the high-priority flag has been recomputed to `false`. -/
def exSL6res : SalesLeadRec :=
  { exSL6 with high_priority_flag := some false }

/-- Expected document after the C6 counterexample run. -/
def exDoc6res : CouchDoc := { sales_lead := some exSL6res, old_data := emptyHistory }

/-- Concrete stored lead used by the C5 and C4 witnesses. -/
def exLead5 : Lead :=
  { company_name := "Acme Inc.",
    primary_market_region := "Europe",
    market_cap_usd := 1000000,
    annual_sales_usd := 500000,
    number_of_customers := 12,
    sales_contact_name := "Jordan Doe",
    sales_contact_email := "jordan@acme.example",
    date_of_last_contact := "2025-01-15",
    lead_source := "Referral",
    crm_activity_flag := false,
    lead_status := "Prospect",
    pipeline_stage := "Discovery",
    last_deal_size_usd := 0,
    lead_score := 30,
    notes := "Contacted client, awaiting response.",
    quarter := "Q1 2025",
    high_priority_flag := false }

/-- Proposed values equal to `exLead5` except for the notes field. -/
def exProp5 : ProposedFields :=
  { company_name := "Acme Inc.",
    primary_market_region := "Europe",
    market_cap_usd := 1000000,
    annual_sales_usd := 500000,
    number_of_customers := 12,
    sales_contact_name := "Jordan Doe",
    sales_contact_email := "jordan@acme.example",
    date_of_last_contact := "2025-01-15",
    lead_source := "Referral",
    crm_activity_flag := false,
    lead_status := "Prospect",
    pipeline_stage := "Discovery",
    last_deal_size_usd := 0,
    notes := "Client requested revised pricing.",
    quarter := "Q1 2025" }

/-- Stored lead with notes "A", used by the C7 witness. -/
def exLeadA : Lead :=
  { exLead5 with notes := "A" }

/-- Proposed values changing only the notes to "B" (first C7 edit). -/
def exPropB : ProposedFields :=
  { exProp5 with notes := "B" }

/-- Proposed values changing only the notes to "C" (second C7 edit). -/
def exPropC : ProposedFields :=
  { exProp5 with notes := "C" }

/-- Proposed values identical to `exLead5`, used by the C6 witness. -/
def exPropSame : ProposedFields :=
  { exProp5 with notes := "Contacted client, awaiting response." }

-- Helper lemmas -------------------------------------------------------------

/-- Closed form of `lead_score_weighted` with the `let` accumulation expanded. -/
theorem lead_score_weighted_def (base : ℤ) (d : ℚ) (s stage : String) (crm : Bool) :
    lead_score_weighted base d s stage crm =
      if s = "Won" ∨ s = "Lost" then 0
      else
        min (max (pyInt ((base : ℚ) + min (d / 166666) 30 +
          (statusScoresGet s : ℚ) + (pipelineScoresGet stage : ℚ) +
          (if crm then (10 : ℚ) else 0))) 0) 100 := by
  by_cases h : s = "Won" ∨ s = "Lost" <;> cases crm <;>
    simp [lead_score_weighted, h]

/-- Truncation toward zero is monotone. -/
theorem pyInt_mono {q r : ℚ} (h : q ≤ r) : pyInt q ≤ pyInt r := by
  unfold pyInt
  split_ifs with h1 h2
  · exact Int.ceil_le_ceil h
  · calc ⌈q⌉ ≤ 0 := Int.ceil_le.mpr (by exact_mod_cast h1.le)
    _ ≤ ⌊r⌋ := Int.floor_nonneg.mpr (not_lt.mp h2)
  · exact absurd (h.trans_lt (by assumption)) (by assumption)
  · exact Int.floor_le_floor h

/-- Under the short-circuit hypotheses, the code's status table agrees with
the spec's table. -/
theorem statusScoresGet_eq_spec (s : String) (hW : s ≠ "Won") (hL : s ≠ "Lost") :
    statusScoresGet s = specStatusPoints s := by
  unfold statusScoresGet specStatusPoints
  split_ifs <;> simp_all

/-- The code's pipeline table agrees with the spec's table everywhere. -/
theorem pipelineScoresGet_eq_spec (stage : String) :
    pipelineScoresGet stage = specStagePoints stage := by
  unfold pipelineScoresGet specStagePoints
  split_ifs <;> simp_all

-- Claim theorems ------------------------------------------------------------

/-- C1: for every deal size, pipeline stage, CRM flag and base draw,
`lead_score_weighted` with lead status Won or Lost returns exactly 0; the
terminal-state check fires before any status or pipeline contribution. -/
theorem lead_score_weighted_terminal_zero (base : ℤ) (d : ℚ)
    (stage : String) (crm : Bool) (s : String) (h : s = "Won" ∨ s = "Lost") :
    lead_score_weighted base d s stage crm = 0 := by
  rw [lead_score_weighted_def, if_pos h]

/-- C1 witness: the terminal-status rule evaluated at a concrete input. -/
theorem lead_score_weighted_terminal_zero_witness :
    (("Won" : String) = "Won" ∨ ("Won" : String) = "Lost") ∧
      lead_score_weighted 35 5000000 "Won" "Closed Won" true = 0 :=
  ⟨Or.inl rfl,
    lead_score_weighted_terminal_zero 35 5000000 "Closed Won" true "Won" (Or.inl rfl)⟩

/-- C2: for every well-formed input (non-negative deal size, any status,
any stage, any CRM flag, base drawn from [20, 50]) the score is an integer
in [0, 100]. -/
theorem lead_score_weighted_in_range (base : ℤ) (d : ℚ) (s stage : String)
    (crm : Bool) (hd : 0 ≤ d) (hb1 : 20 ≤ base) (hb2 : base ≤ 50) :
    0 ≤ lead_score_weighted base d s stage crm ∧
      lead_score_weighted base d s stage crm ≤ 100 := by
  rw [lead_score_weighted_def]
  split
  · exact ⟨le_rfl, by norm_num⟩
  · exact ⟨le_min (le_max_right _ _) (by norm_num), min_le_right _ _⟩

/-- C2 witness: the range bound evaluated at a concrete input. -/
theorem lead_score_weighted_in_range_witness :
    (0 : ℚ) ≤ 123456 ∧ (20 : ℤ) ≤ 20 ∧ (20 : ℤ) ≤ 50 ∧
      (0 ≤ lead_score_weighted 20 123456 "Qualified" "Discovery" true ∧
        lead_score_weighted 20 123456 "Qualified" "Discovery" true ≤ 100) :=
  ⟨by norm_num, by norm_num, by norm_num,
    lead_score_weighted_in_range 20 123456 "Qualified" "Discovery" true
      (by norm_num) (by norm_num) (by norm_num)⟩

/-- C3: for every non-Won/non-Lost status the score equals the clamp to
[0, 100] of the integer truncation of base + min(deal/166666, 30) + the
spec's status points + the spec's stage points + (10 if CRM active); and
the spec's concrete example scores 95. -/
theorem lead_score_weighted_formula :
    (∀ (base : ℤ) (d : ℚ) (s stage : String) (crm : Bool),
      s ≠ "Won" → s ≠ "Lost" →
      lead_score_weighted base d s stage crm =
        specClamp (pyInt ((base : ℚ) + min (d / 166666) 30 +
          (specStatusPoints s : ℚ) + (specStagePoints stage : ℚ) +
          (if crm then (10 : ℚ) else 0)))) ∧
    lead_score_weighted 20 5000000 "Negotiation" "Negotiation" true = 95 := by
  constructor
  · intro base d s stage crm hW hL
    rw [lead_score_weighted_def, if_neg (by rintro (h | h) <;> simp_all),
      statusScoresGet_eq_spec s hW hL, pipelineScoresGet_eq_spec stage]
    rfl
  · have h30 : min ((5000000 : ℚ) / 166666) 30 = 30 := by
      rw [min_eq_right]
      norm_num
    have hs : statusScoresGet "Negotiation" = 15 := by decide
    have hp : pipelineScoresGet "Negotiation" = 20 := by decide
    rw [lead_score_weighted_def, if_neg (by decide), h30, hs, hp]
    norm_num [pyInt]

/-- C3 witness: the formula applied at the spec's concrete example input. -/
theorem lead_score_weighted_formula_witness :
    lead_score_weighted 20 5000000 "Negotiation" "Negotiation" true =
      specClamp (pyInt ((20 : ℚ) + min ((5000000 : ℚ) / 166666) 30 +
        (specStatusPoints "Negotiation" : ℚ) + (specStagePoints "Negotiation" : ℚ) +
        (10 : ℚ))) := by
  have h := lead_score_weighted_formula.1 20 5000000 "Negotiation" "Negotiation" true
    (by decide) (by decide)
  simpa using h

/-- C8: for a fixed base, status, stage and CRM flag, the score is monotone
in the deal size, and the deal contribution saturates: every deal at or
above 166666 * 30 dollars scores the same as one of exactly 166666 * 30. -/
theorem lead_score_weighted_monotone (base : ℤ) (s stage : String) (crm : Bool)
    (d1 d2 : ℚ) (h0 : 0 ≤ d1) (h12 : d1 ≤ d2) :
    lead_score_weighted base d1 s stage crm ≤
      lead_score_weighted base d2 s stage crm ∧
    (∀ d : ℚ, (166666 * 30 : ℚ) ≤ d →
      lead_score_weighted base d s stage crm =
        lead_score_weighted base (166666 * 30) s stage crm) := by
  constructor
  · rw [lead_score_weighted_def, lead_score_weighted_def]
    split
    · exact le_rfl
    · refine min_le_min (max_le_max (pyInt_mono ?_) le_rfl) le_rfl
      have : d1 / 166666 ≤ d2 / 166666 := by gcongr
      have : min (d1 / 166666) 30 ≤ min (d2 / 166666) 30 := min_le_min this le_rfl
      linarith
  · intro d hd
    have hsat : ∀ e : ℚ, (166666 * 30 : ℚ) ≤ e → min (e / 166666) 30 = 30 := by
      intro e he
      rw [min_eq_right]
      rw [le_div_iff₀ (by norm_num)]
      linarith
    rw [lead_score_weighted_def, lead_score_weighted_def,
      hsat d hd, hsat (166666 * 30) le_rfl]

/-- C8 witness: monotonicity and saturation applied at concrete deal sizes. -/
theorem lead_score_weighted_monotone_witness :
    (0 : ℚ) ≤ 100000 ∧ (100000 : ℚ) ≤ 2000000 ∧
      lead_score_weighted 30 100000 "Prospect" "Discovery" false ≤
        lead_score_weighted 30 2000000 "Prospect" "Discovery" false :=
  ⟨by norm_num, by norm_num,
    (lead_score_weighted_monotone 30 "Prospect" "Discovery" false 100000 2000000
      (by norm_num) (by norm_num)).1⟩

/-- C9: the generated status/stage pair always lies in the spec's valid-pair
table, and the draw is uniform over exactly those 13 pairs: the choices list
the generator draws from uniformly is precisely the 13-element duplicate-free
enumeration of the table. -/
theorem random_pair_valid_and_uniform :
    statusStageChoices = specValidPairs ∧
    statusStageChoices.length = 13 ∧
    statusStageChoices.Nodup ∧
    ∀ i : Fin statusStageChoices.length,
      random_lead_status_and_pipeline_stage i ∈ specValidPairs := by
  refine ⟨by decide, by decide, by decide, ?_⟩
  intro i
  have hsub : ∀ x ∈ statusStageChoices, x ∈ specValidPairs := by decide
  exact hsub _ (List.get_mem statusStageChoices i.1 i.2)

-- Audit-fold lemmas ---------------------------------------------------------

/-- Fields whose name is not in the list are never written by the loop. -/
theorem auditFold_fst_apply_of_not_mem (t : String)
    (fields : List (String × JValue × JValue)) (acc : History × Bool) (k : String)
    (hk : k ∉ fields.map Prod.fst) :
    (auditFold t fields acc).1 k = acc.1 k := by
  induction fields generalizing acc with
  | nil => rfl
  | cons fld rest ih =>
    simp only [List.map_cons, List.mem_cons, not_or] at hk
    simp only [auditFold]
    rw [ih _ hk.2]
    split
    · simp [writeEntry, hk.1]
    · rfl

/-- Lookup after the loop at a listed field: an entry holding the old value
if and only if the new value differed, the prior entry otherwise. -/
theorem auditFold_fst_apply_of_mem (t : String)
    (fields : List (String × JValue × JValue)) (acc : History × Bool)
    (k : String) (n o : JValue) (hmem : (k, n, o) ∈ fields)
    (hnd : (fields.map Prod.fst).Nodup) :
    (auditFold t fields acc).1 k = if n ≠ o then some ⟨o, t⟩ else acc.1 k := by
  induction fields generalizing acc with
  | nil => cases hmem
  | cons fld rest ih =>
    simp only [List.map_cons, List.nodup_cons] at hnd
    rcases List.mem_cons.mp hmem with heq | htail
    · subst heq
      simp only [auditFold]
      rw [auditFold_fst_apply_of_not_mem t rest _ k hnd.1]
      split
      · simp [writeEntry]
      · rfl
    · have hk1 : k ≠ fld.1 := by
        intro h
        exact hnd.1 (h ▸ List.mem_map_of_mem Prod.fst htail)
      simp only [auditFold]
      rw [ih _ htail hnd.2]
      split
      · rfl
      · split
        · simp [writeEntry, hk1]
        · rfl

/-- The loop's changed flag is set exactly when some field differed. -/
theorem auditFold_changed_iff (t : String)
    (fields : List (String × JValue × JValue)) (acc : History × Bool) :
    (auditFold t fields acc).2 = true ↔
      acc.2 = true ∨ ∃ fld ∈ fields, fld.2.1 ≠ fld.2.2 := by
  induction fields generalizing acc with
  | nil => simp [auditFold]
  | cons fld rest ih =>
    simp only [auditFold]
    rw [ih]
    split
    · rename_i hne
      constructor
      · intro _
        exact Or.inr ⟨fld, List.mem_cons_self _ _, hne⟩
      · intro _
        exact Or.inl rfl
    · rename_i heq
      rw [not_not] at heq
      simp only [List.mem_cons]
      constructor
      · rintro (h | ⟨g, hg, hgne⟩)
        · exact Or.inl h
        · exact Or.inr ⟨g, Or.inr hg, hgne⟩
      · rintro (h | ⟨g, hg | hg, hgne⟩)
        · exact Or.inl h
        · exact absurd (hg ▸ heq) hgne
        · exact Or.inr ⟨g, hg, hgne⟩

/-- When no listed field differs, the loop does nothing at all. -/
theorem auditFold_of_all_eq (t : String)
    (fields : List (String × JValue × JValue)) (acc : History × Bool)
    (h : ∀ fld ∈ fields, fld.2.1 = fld.2.2) :
    auditFold t fields acc = acc := by
  induction fields with
  | nil => rfl
  | cons fld rest ih =>
    simp only [auditFold]
    rw [if_neg (not_ne_iff.mpr (h fld (List.mem_cons_self _ _)))]
    exact ih fun g hg => h g (List.mem_cons_of_mem _ hg)

/-- Field names tracked by the edit form, in source order. -/
theorem fields_to_check_fst (p : ProposedFields) (n : ℤ) (sl : Lead) :
    (fields_to_check p n sl).map Prod.fst =
      ["company_name", "primary_market_region", "market_cap_usd",
       "annual_sales_usd", "number_of_customers", "sales_contact_name",
       "sales_contact_email", "date_of_last_contact", "lead_source",
       "crm_activity_flag", "lead_status", "pipeline_stage",
       "last_deal_size_usd", "lead_score", "notes", "quarter"] := rfl

/-- The tracked field names are pairwise distinct. -/
theorem fields_to_check_fst_nodup (p : ProposedFields) (n : ℤ) (sl : Lead) :
    ((fields_to_check p n sl).map Prod.fst).Nodup := by
  rw [fields_to_check_fst]
  decide

/-- On the lead rebuilt by a changed edit, the current value the next diff
sees for a tracked field is the value the first edit proposed for it: the
rebuilt lead replaces every field with its proposed value, and the score
with the recomputed score. -/
theorem fields_to_check_old_of_updated (p1 p2 : ProposedFields) (ns1 ns2 : ℤ)
    (sl : Lead) (k : String) (n1 o1 n2 o2 : JValue)
    (h1 : (k, n1, o1) ∈ fields_to_check p1 ns1 sl)
    (h2 : (k, n2, o2) ∈ fields_to_check p2 ns2 (updatedLead p1 ns1)) :
    o2 = n1 := by
  simp only [fields_to_check, List.mem_cons, List.not_mem_nil, or_false,
    Prod.mk.injEq] at h1 h2
  rcases h1 with g | g | g | g | g | g | g | g | g | g | g | g | g | g | g | g <;>
    obtain ⟨rfl, rfl, rfl⟩ := g <;>
    simp_all [updatedLead]

/-- When some tracked field differs, `apply_edit` returns the fully rebuilt
lead, the written history, and `changed = true`. -/
theorem apply_edit_of_changed (sl : Lead) (p : ProposedFields) (base : ℤ)
    (H : History) (t : String)
    (h : ∃ fld ∈ fields_to_check p (newScore p base) sl, fld.2.1 ≠ fld.2.2) :
    apply_edit sl p base H t =
      (updatedLead p (newScore p base),
       (auditFold t (fields_to_check p (newScore p base) sl) (H, false)).1,
       true) := by
  unfold apply_edit
  rw [if_pos ((auditFold_changed_iff t _ (H, false)).mpr (Or.inr h))]

-- update_document characterization ------------------------------------------

/-- Unfolding `update_document` on a document that has a `sales_lead` key. -/
theorem update_document_some (doc : CouchDoc) (sl : SalesLeadRec)
    (draw : String × String) (note : String) (base : ℤ) (t : String)
    (hsl : doc.sales_lead = some sl) :
    update_document doc draw note base t =
      match (udSteps sl doc.old_data draw.1 draw.2 note base t).sl.lead_score with
      | none => .error "KeyError: lead_score"
      | some sc =>
        if (udSteps sl doc.old_data draw.1 draw.2 note base t).changed then
          .ok ({ doc with
                  sales_lead := some
                    { (udSteps sl doc.old_data draw.1 draw.2 note base t).sl with
                      high_priority_flag := some (decide (sc ≥ 80)) },
                  old_data :=
                    (udSteps sl doc.old_data draw.1 draw.2 note base t).old_data },
                true)
        else
          .ok ({ doc with
                  sales_lead := some
                    { (udSteps sl doc.old_data draw.1 draw.2 note base t).sl with
                      high_priority_flag := some (decide (sc ≥ 80)) } },
                false) := by
  unfold update_document udSteps
  rw [hsl]

/-- History entry for `lead_status` after the three edit blocks: written
(with the old status) exactly when the drawn pair differs jointly. -/
theorem udSteps_old_data_lead_status (sl : SalesLeadRec) (H : History)
    (a b note : String) (base : ℤ) (t : String) :
    (udSteps sl H a b note base t).old_data "lead_status" =
      if some a ≠ sl.lead_status ∨ some b ≠ sl.pipeline_stage
      then some ⟨optStrVal sl.lead_status, t⟩ else H "lead_status" := by
  unfold udSteps statusStep notesStep scoreStep
  split_ifs with c1 c2 c3 <;> simp_all [writeEntry] <;>
    (try split_ifs <;> simp_all [writeEntry])

/-- History entry for `pipeline_stage` after the three edit blocks. -/
theorem udSteps_old_data_pipeline_stage (sl : SalesLeadRec) (H : History)
    (a b note : String) (base : ℤ) (t : String) :
    (udSteps sl H a b note base t).old_data "pipeline_stage" =
      if some a ≠ sl.lead_status ∨ some b ≠ sl.pipeline_stage
      then some ⟨optStrVal sl.pipeline_stage, t⟩ else H "pipeline_stage" := by
  unfold udSteps statusStep notesStep scoreStep
  split_ifs with c1 c2 c3 <;> simp_all [writeEntry] <;>
    (try split_ifs <;> simp_all [writeEntry])

/-- History entry for `notes` after the three edit blocks. -/
theorem udSteps_old_data_notes (sl : SalesLeadRec) (H : History)
    (a b note : String) (base : ℤ) (t : String) :
    (udSteps sl H a b note base t).old_data "notes" =
      if some note ≠ sl.notes then some ⟨optStrVal sl.notes, t⟩ else H "notes" := by
  unfold udSteps statusStep notesStep scoreStep
  split_ifs with c1 c2 c3 <;> simp_all [writeEntry] <;>
    (try split_ifs <;> simp_all [writeEntry])

/-- History entry for `lead_score` after the three edit blocks. -/
theorem udSteps_old_data_lead_score (sl : SalesLeadRec) (H : History)
    (a b note : String) (base : ℤ) (t : String) :
    (udSteps sl H a b note base t).old_data "lead_score" =
      if lead_score_weighted base (sl.last_deal_size_usd.getD 0) a b
          (sl.crm_activity_flag.getD false) ≠ sl.lead_score.getD 0
      then some ⟨.vInt (sl.lead_score.getD 0), t⟩ else H "lead_score" := by
  unfold udSteps statusStep notesStep scoreStep
  split_ifs with c1 c2 c3 <;> simp_all [writeEntry] <;>
    (try split_ifs <;> simp_all [writeEntry])

/-- No other history key is touched by the three edit blocks. -/
theorem udSteps_old_data_other (sl : SalesLeadRec) (H : History)
    (a b note : String) (base : ℤ) (t : String) (k : String)
    (h1 : k ≠ "lead_status") (h2 : k ≠ "pipeline_stage")
    (h3 : k ≠ "notes") (h4 : k ≠ "lead_score") :
    (udSteps sl H a b note base t).old_data k = H k := by
  unfold udSteps statusStep notesStep scoreStep
  split_ifs with c1 c2 c3 <;> simp_all [writeEntry] <;>
    (try split_ifs <;> simp_all [writeEntry])

/-- Stored score after the three edit blocks. -/
theorem udSteps_sl_lead_score (sl : SalesLeadRec) (H : History)
    (a b note : String) (base : ℤ) (t : String) :
    (udSteps sl H a b note base t).sl.lead_score =
      if lead_score_weighted base (sl.last_deal_size_usd.getD 0) a b
          (sl.crm_activity_flag.getD false) ≠ sl.lead_score.getD 0
      then some (lead_score_weighted base (sl.last_deal_size_usd.getD 0) a b
          (sl.crm_activity_flag.getD false))
      else sl.lead_score := by
  unfold udSteps statusStep notesStep scoreStep
  split_ifs with c1 c2 c3 <;> simp_all <;>
    (try split_ifs <;> simp_all)

/-- Stored status and stage after the three edit blocks. -/
theorem udSteps_sl_status_stage (sl : SalesLeadRec) (H : History)
    (a b note : String) (base : ℤ) (t : String) :
    (udSteps sl H a b note base t).sl.lead_status =
      (if some a ≠ sl.lead_status ∨ some b ≠ sl.pipeline_stage
       then some a else sl.lead_status) ∧
    (udSteps sl H a b note base t).sl.pipeline_stage =
      (if some a ≠ sl.lead_status ∨ some b ≠ sl.pipeline_stage
       then some b else sl.pipeline_stage) := by
  unfold udSteps statusStep notesStep scoreStep
  split_ifs with c1 c2 c3 <;> simp_all <;>
    (try split_ifs <;> simp_all)

/-- The changed flag after the three edit blocks. -/
theorem udSteps_changed_iff (sl : SalesLeadRec) (H : History)
    (a b note : String) (base : ℤ) (t : String) :
    (udSteps sl H a b note base t).changed = true ↔
      (some a ≠ sl.lead_status ∨ some b ≠ sl.pipeline_stage) ∨
      some note ≠ sl.notes ∨
      lead_score_weighted base (sl.last_deal_size_usd.getD 0) a b
        (sl.crm_activity_flag.getD false) ≠ sl.lead_score.getD 0 := by
  unfold udSteps statusStep notesStep scoreStep
  split_ifs with c1 c2 c3 <;> simp_all <;>
    (try split_ifs <;> simp_all)

-- Concrete score evaluations used by witnesses and counterexamples ----------

/-- Score of a zero-deal Prospect lead in Discovery without CRM activity. -/
theorem score_eval_prospect_discovery :
    lead_score_weighted 20 0 "Prospect" "Discovery" false = 30 := by
  have hs : statusScoresGet "Prospect" = 5 := by decide
  have hp : pipelineScoresGet "Discovery" = 5 := by decide
  rw [lead_score_weighted_def, if_neg (by decide), hs, hp]
  norm_num [min_def, max_def, pyInt]

/-- Score of a zero-deal Prospect lead whose stage moved to Proposal Sent. -/
theorem score_eval_prospect_proposal :
    lead_score_weighted 20 0 "Prospect" "Proposal Sent" false = 35 := by
  have hs : statusScoresGet "Prospect" = 5 := by decide
  have hp : pipelineScoresGet "Proposal Sent" = 10 := by decide
  rw [lead_score_weighted_def, if_neg (by decide), hs, hp]
  norm_num [min_def, max_def, pyInt]

/-- Score of a Won lead (terminal-status short-circuit). -/
theorem score_eval_won :
    lead_score_weighted 20 0 "Won" "Closed Won" false = 0 := by
  rw [lead_score_weighted_def, if_pos (Or.inl rfl)]

/-- Running `update_document` on the consistent-looking Won document with a
draw equal to all its stored values: nothing is diffed, but the flag is
still recomputed. -/
theorem update_document_exDoc6_eval :
    update_document exDoc6 ("Won", "Closed Won")
      "Negotiations ongoing, positive signs." 20 "2025-06-30T00:00:00Z" =
      .ok (exDoc6res, false) := by
  have hud : udSteps exSL6 exDoc6.old_data "Won" "Closed Won"
      "Negotiations ongoing, positive signs." 20 "2025-06-30T00:00:00Z" =
      ⟨exSL6, exDoc6.old_data, false⟩ := by
    have h1 : statusStep "Won" "Closed Won" "2025-06-30T00:00:00Z"
        ⟨exSL6, exDoc6.old_data, false⟩ = ⟨exSL6, exDoc6.old_data, false⟩ := by
      unfold statusStep
      rw [if_neg (by decide)]
    have h2 : notesStep "Negotiations ongoing, positive signs."
        "2025-06-30T00:00:00Z" ⟨exSL6, exDoc6.old_data, false⟩ =
        ⟨exSL6, exDoc6.old_data, false⟩ := by
      unfold notesStep
      rw [if_neg (by decide)]
    have hsc : ¬(lead_score_weighted 20 (exSL6.last_deal_size_usd.getD 0)
        "Won" "Closed Won" (exSL6.crm_activity_flag.getD false) ≠
        exSL6.lead_score.getD 0) := by
      rw [not_ne_iff]
      show lead_score_weighted 20 0 "Won" "Closed Won" false = (0 : ℤ)
      exact score_eval_won
    have h3 : scoreStep "Won" "Closed Won" 20 "2025-06-30T00:00:00Z"
        ⟨exSL6, exDoc6.old_data, false⟩ = ⟨exSL6, exDoc6.old_data, false⟩ := by
      unfold scoreStep
      dsimp only
      rw [if_neg hsc]
    unfold udSteps
    rw [h1, h2, h3]
  rw [update_document_some exDoc6 exSL6 ("Won", "Closed Won") _ 20 _ rfl, hud]
  rfl

-- C10 ------------------------------------------------------------------------

/-- C10: a document without a `sales_lead` key is returned unchanged, with
`changed = false`, no field updates, no history writes, and no
high-priority-flag recomputation. -/
theorem update_document_no_sales_lead (doc : CouchDoc) (draw : String × String)
    (note : String) (base : ℤ) (t : String) (h : doc.sales_lead = none) :
    update_document doc draw note base t = .ok (doc, false) := by
  unfold update_document
  rw [h]

/-- C10 witness: the missing-key early return at a concrete document. -/
theorem update_document_no_sales_lead_witness :
    ({ sales_lead := none, old_data := emptyHistory } : CouchDoc).sales_lead
        = none ∧
      update_document { sales_lead := none, old_data := emptyHistory }
        ("Won", "Closed Won") "x" 20 "2025-06-30T00:00:00Z" =
        .ok ({ sales_lead := none, old_data := emptyHistory }, false) :=
  ⟨rfl, update_document_no_sales_lead _ _ _ _ _ rfl⟩

-- C7 -------------------------------------------------------------------------

/-- C7: for every tracked field, two successive edits that each change that
field leave the single map entry for it (the history map holds at most one
entry per field name), whose `old_value` is the field's value immediately
before the second edit — which equals the value the first edit proposed,
i.e. the intermediate value, not the original — and whose `audit_date` is
the second edit's timestamp. -/
theorem field_history_overwrite (sl : Lead) (p1 p2 : ProposedFields)
    (b1 b2 : ℤ) (H : History) (t1 t2 : String) (k : String)
    (n1 o1 n2 o2 : JValue)
    (h1mem : (k, n1, o1) ∈ fields_to_check p1 (newScore p1 b1) sl)
    (h1ne : n1 ≠ o1)
    (h2mem : (k, n2, o2) ∈
      fields_to_check p2 (newScore p2 b2) (apply_edit sl p1 b1 H t1).1)
    (h2ne : n2 ≠ o2) :
    (apply_edit (apply_edit sl p1 b1 H t1).1 p2 b2
        (apply_edit sl p1 b1 H t1).2.1 t2).2.1 k = some ⟨o2, t2⟩ ∧
    o2 = n1 := by
  have hch1 : ∃ fld ∈ fields_to_check p1 (newScore p1 b1) sl,
      fld.2.1 ≠ fld.2.2 := ⟨(k, n1, o1), h1mem, h1ne⟩
  rw [apply_edit_of_changed sl p1 b1 H t1 hch1] at h2mem ⊢
  constructor
  · rw [apply_edit_of_changed _ p2 b2 _ t2 ⟨(k, n2, o2), h2mem, h2ne⟩]
    rw [auditFold_fst_apply_of_mem t2 _ _ k n2 o2 h2mem
      (fields_to_check_fst_nodup _ _ _)]
    rw [if_pos h2ne]
  · exact fields_to_check_old_of_updated p1 p2 (newScore p1 b1) (newScore p2 b2)
      sl k n1 o1 n2 o2 h1mem h2mem

/-- C7 witness: the overwrite law applied at the notes field, running the
spec's concrete A-to-B-to-C example with timestamps `t1` and `t2`: the final
entry holds old value "B" (the intermediate value) and date `t2`. -/
theorem field_history_overwrite_witness :
    ((JValue.vStr exPropB.notes) ≠ .vStr exLeadA.notes) ∧
    ((JValue.vStr exPropC.notes) ≠
      .vStr (apply_edit exLeadA exPropB 20 emptyHistory "t1").1.notes) ∧
    ((apply_edit (apply_edit exLeadA exPropB 20 emptyHistory "t1").1 exPropC 20
        (apply_edit exLeadA exPropB 20 emptyHistory "t1").2.1 "t2").2.1 "notes" =
      some ⟨.vStr (apply_edit exLeadA exPropB 20 emptyHistory "t1").1.notes, "t2"⟩ ∧
      JValue.vStr (apply_edit exLeadA exPropB 20 emptyHistory "t1").1.notes =
        .vStr exPropB.notes) ∧
    (apply_edit exLeadA exPropB 20 emptyHistory "t1").1.notes = "B" := by
  have h1ne : (JValue.vStr exPropB.notes) ≠ .vStr exLeadA.notes := by decide
  have hB : (apply_edit exLeadA exPropB 20 emptyHistory "t1").1.notes = "B" := by
    rw [apply_edit_of_changed exLeadA exPropB 20 emptyHistory "t1"
      ⟨("notes", .vStr exPropB.notes, .vStr exLeadA.notes),
        by simp [fields_to_check], h1ne⟩]
    rfl
  have h2ne : (JValue.vStr exPropC.notes) ≠
      .vStr (apply_edit exLeadA exPropB 20 emptyHistory "t1").1.notes := by
    rw [hB]
    decide
  exact ⟨h1ne, h2ne,
    field_history_overwrite exLeadA exPropB exPropC 20 20 emptyHistory "t1" "t2"
      "notes" (.vStr exPropB.notes) (.vStr exLeadA.notes) (.vStr exPropC.notes)
      (.vStr (apply_edit exLeadA exPropB 20 emptyHistory "t1").1.notes)
      (by simp [fields_to_check]) h1ne (by simp [fields_to_check]) h2ne, hB⟩

-- C5 -------------------------------------------------------------------------

/-- C5: every lead produced by the audit diff/merge operation satisfies the
high-priority invariant, the flag being recomputed from the final score:
when `apply_edit` reports a change its lead's flag is set iff its score is
at least 80, and every document `update_document` returns carries a present
score with the flag recomputed from exactly that score. -/
theorem high_priority_flag_invariant :
    (∀ (sl : Lead) (p : ProposedFields) (base : ℤ) (H : History) (t : String),
      (apply_edit sl p base H t).2.2 = true →
      ((apply_edit sl p base H t).1.high_priority_flag = true ↔
        80 ≤ (apply_edit sl p base H t).1.lead_score)) ∧
    (∀ (doc : CouchDoc) (draw : String × String) (note : String) (base : ℤ)
        (t : String) (d : CouchDoc) (c : Bool) (sl : SalesLeadRec),
      update_document doc draw note base t = .ok (d, c) →
      d.sales_lead = some sl →
      ∃ s : ℤ, sl.lead_score = some s ∧
        sl.high_priority_flag = some (decide (s ≥ 80))) := by
  constructor
  · intro sl p base H t hch
    unfold apply_edit at hch ⊢
    by_cases hb :
        (auditFold t (fields_to_check p (newScore p base) sl) (H, false)).2 = true
    · rw [if_pos hb]
      simp [updatedLead, ge_iff_le]
    · rw [if_neg hb] at hch
      exact absurd hch (by simp)
  · intro doc draw note base t d c sl hok hdl
    rcases hds : doc.sales_lead with _ | sl0
    · unfold update_document at hok
      rw [hds] at hok
      simp only [Except.ok.injEq, Prod.mk.injEq] at hok
      obtain ⟨h1, -⟩ := hok
      subst h1
      rw [hds] at hdl
      cases hdl
    · rw [update_document_some doc sl0 draw note base t hds] at hok
      rcases hq : (udSteps sl0 doc.old_data draw.1 draw.2 note base t).sl.lead_score
        with _ | sc
      · rw [hq] at hok
        exact absurd hok (by simp)
      · rw [hq] at hok
        dsimp only at hok
        split at hok <;>
          (simp only [Except.ok.injEq, Prod.mk.injEq] at hok
           obtain ⟨h1, -⟩ := hok
           subst h1
           simp only [Option.some.injEq] at hdl
           exact ⟨sc, by rw [← hdl]; simpa using hq, by rw [← hdl]⟩)

/-- C5 witness: the invariant evaluated on a concrete changed edit and on a
concrete `update_document` run. -/
theorem high_priority_flag_invariant_witness :
    ((apply_edit exLead5 exProp5 20 emptyHistory "t").2.2 = true ∧
      ((apply_edit exLead5 exProp5 20 emptyHistory "t").1.high_priority_flag = true ↔
        80 ≤ (apply_edit exLead5 exProp5 20 emptyHistory "t").1.lead_score)) ∧
    (update_document exDoc6 ("Won", "Closed Won")
        "Negotiations ongoing, positive signs." 20 "2025-06-30T00:00:00Z" =
        .ok (exDoc6res, false) ∧
      ∃ s : ℤ, exSL6res.lead_score = some s ∧
        exSL6res.high_priority_flag = some (decide (s ≥ 80))) := by
  have hch : (apply_edit exLead5 exProp5 20 emptyHistory "t").2.2 = true := by
    have hb : ∃ fld ∈ fields_to_check exProp5 (newScore exProp5 20) exLead5,
        fld.2.1 ≠ fld.2.2 :=
      ⟨("notes", .vStr exProp5.notes, .vStr exLead5.notes),
        by simp [fields_to_check], by decide⟩
    rw [apply_edit_of_changed exLead5 exProp5 20 emptyHistory "t" hb]
  have hok : update_document exDoc6 ("Won", "Closed Won")
      "Negotiations ongoing, positive signs." 20 "2025-06-30T00:00:00Z" =
      .ok (exDoc6res, false) := update_document_exDoc6_eval
  exact ⟨⟨hch, high_priority_flag_invariant.1 exLead5 exProp5 20 emptyHistory "t" hch⟩,
    ⟨hok, high_priority_flag_invariant.2 exDoc6 ("Won", "Closed Won")
      "Negotiations ongoing, positive signs." 20 "2025-06-30T00:00:00Z"
      exDoc6res false exSL6res hok rfl⟩⟩

-- C6 -------------------------------------------------------------------------

/-- C6 counterexample: a possible draw equal to every stored value (including
the recomputed score) still does not return the lead unmodified —
`update_document` recomputes `high_priority_flag` on the way out, so the
returned record differs from the input record while `changed = false`. -/
theorem update_document_noop_recomputes_flag :
    ("Won", "Closed Won") ∈ statusStageChoices ∧
    some "Won" = exSL6.lead_status ∧
    some "Closed Won" = exSL6.pipeline_stage ∧
    some "Negotiations ongoing, positive signs." = exSL6.notes ∧
    lead_score_weighted 20 (exSL6.last_deal_size_usd.getD 0) "Won" "Closed Won"
      (exSL6.crm_activity_flag.getD false) = exSL6.lead_score.getD 0 ∧
    update_document exDoc6 ("Won", "Closed Won")
      "Negotiations ongoing, positive signs." 20 "2025-06-30T00:00:00Z" =
      .ok (exDoc6res, false) ∧
    exDoc6res.sales_lead ≠ exDoc6.sales_lead := by
  refine ⟨by decide, rfl, rfl, rfl, score_eval_won, update_document_exDoc6_eval, ?_⟩
  intro h
  have h2 : exSL6res = exSL6 := Option.some.inj h
  have h3 : (some false : Option Bool) = some true :=
    congrArg SalesLeadRec.high_priority_flag h2
  exact Bool.noConfusion (Option.some.inj h3)

/-- C6 amended: the audit diff/merge operation is a no-op on equal input up
to the flag recomputation: `apply_edit` on all-equal fields returns the lead
and history untouched with `changed = false`, and `update_document` on a
draw equal to all stored values returns the document unchanged with
`changed = false` provided the stored score is present and the stored
high-priority flag is already consistent with it. -/
theorem no_op_edit_amended :
    (∀ (sl : Lead) (p : ProposedFields) (base : ℤ) (H : History) (t : String),
      (∀ fld ∈ fields_to_check p (newScore p base) sl, fld.2.1 = fld.2.2) →
      apply_edit sl p base H t = (sl, H, false)) ∧
    (∀ (doc : CouchDoc) (sl : SalesLeadRec) (draw : String × String)
        (note : String) (base : ℤ) (t : String) (s : ℤ),
      doc.sales_lead = some sl →
      some draw.1 = sl.lead_status →
      some draw.2 = sl.pipeline_stage →
      some note = sl.notes →
      sl.lead_score = some s →
      lead_score_weighted base (sl.last_deal_size_usd.getD 0) draw.1 draw.2
        (sl.crm_activity_flag.getD false) = s →
      sl.high_priority_flag = some (decide (s ≥ 80)) →
      update_document doc draw note base t = .ok (doc, false)) := by
  constructor
  · intro sl p base H t hall
    unfold apply_edit
    dsimp only
    rw [auditFold_of_all_eq t _ _ hall]
    rfl
  · intro doc sl draw note base t s hsl hst hpi hno hsc hcomp hflag
    have h1 : statusStep draw.1 draw.2 t ⟨sl, doc.old_data, false⟩ =
        ⟨sl, doc.old_data, false⟩ := by
      unfold statusStep
      rw [if_neg (not_or.mpr ⟨not_ne_iff.mpr hst, not_ne_iff.mpr hpi⟩)]
    have h2 : notesStep note t ⟨sl, doc.old_data, false⟩ =
        ⟨sl, doc.old_data, false⟩ := by
      unfold notesStep
      rw [if_neg (not_ne_iff.mpr hno)]
    have h3 : scoreStep draw.1 draw.2 base t ⟨sl, doc.old_data, false⟩ =
        ⟨sl, doc.old_data, false⟩ := by
      unfold scoreStep
      dsimp only
      rw [if_neg (not_ne_iff.mpr (by rw [hsc]; simpa using hcomp))]
    have hud : udSteps sl doc.old_data draw.1 draw.2 note base t =
        ⟨sl, doc.old_data, false⟩ := by
      unfold udSteps
      rw [h1, h2, h3]
    rw [update_document_some doc sl draw note base t hsl, hud]
    dsimp only
    rw [hsc]
    show Except.ok
        (({ doc with
              sales_lead := some
                { sl with
                    lead_score := some s,
                    high_priority_flag := some (decide (s ≥ 80)) } } :
          CouchDoc), false) =
      .ok (doc, false)
    rw [← hflag, ← hsc]
    show Except.ok (({ doc with sales_lead := some sl } : CouchDoc), false) =
      .ok (doc, false)
    rw [← hsl]

/-- C6 witness: the amended no-op law applied to a concrete all-equal edit
and a concrete consistent document. -/
theorem no_op_edit_amended_witness :
    apply_edit exLead5 exPropSame 20 emptyHistory "t" =
      (exLead5, emptyHistory, false) ∧
    update_document exDoc6res ("Won", "Closed Won")
      "Negotiations ongoing, positive signs." 20 "2025-06-30T00:00:00Z" =
      .ok (exDoc6res, false) := by
  have hns : newScore exPropSame 20 = 30 := score_eval_prospect_discovery
  have hall : ∀ fld ∈ fields_to_check exPropSame (newScore exPropSame 20) exLead5,
      fld.2.1 = fld.2.2 := by
    intro fld hfld
    rw [hns] at hfld
    simp only [fields_to_check, List.mem_cons, List.not_mem_nil, or_false] at hfld
    rcases hfld with rfl | rfl | rfl | rfl | rfl | rfl | rfl | rfl | rfl | rfl |
      rfl | rfl | rfl | rfl | rfl | rfl <;> rfl
  refine ⟨no_op_edit_amended.1 exLead5 exPropSame 20 emptyHistory "t" hall, ?_⟩
  exact no_op_edit_amended.2 exDoc6res exSL6res ("Won", "Closed Won")
    "Negotiations ongoing, positive signs." 20 "2025-06-30T00:00:00Z" 0
    rfl rfl rfl rfl rfl score_eval_won rfl

-- C4 -------------------------------------------------------------------------

/-- Running `update_document` on `exDoc4` with a draw that keeps the status
and moves only the stage: both pair entries are written. -/
theorem update_document_exDoc4_eval :
    update_document exDoc4 ("Prospect", "Proposal Sent")
      "Sent proposal, pending approval." 20 "2025-06-30T00:00:00Z" =
      .ok (exDoc4res, true) := by
  have h1 : statusStep "Prospect" "Proposal Sent" "2025-06-30T00:00:00Z"
      ⟨exSL4, exDoc4.old_data, false⟩ =
      ⟨exSL4res, exDoc4res.old_data, true⟩ := by
    unfold statusStep
    rw [if_pos (by decide)]
    rfl
  have h2 : notesStep "Sent proposal, pending approval." "2025-06-30T00:00:00Z"
      ⟨exSL4res, exDoc4res.old_data, true⟩ =
      ⟨exSL4res, exDoc4res.old_data, true⟩ := by
    unfold notesStep
    rw [if_neg (by decide)]
  have hsc : ¬(lead_score_weighted 20 (exSL4res.last_deal_size_usd.getD 0)
      "Prospect" "Proposal Sent" (exSL4res.crm_activity_flag.getD false) ≠
      exSL4res.lead_score.getD 0) := by
    rw [not_ne_iff]
    show lead_score_weighted 20 0 "Prospect" "Proposal Sent" false = (35 : ℤ)
    exact score_eval_prospect_proposal
  have h3 : scoreStep "Prospect" "Proposal Sent" 20 "2025-06-30T00:00:00Z"
      ⟨exSL4res, exDoc4res.old_data, true⟩ =
      ⟨exSL4res, exDoc4res.old_data, true⟩ := by
    unfold scoreStep
    dsimp only
    rw [if_neg hsc]
  have hud : udSteps exSL4 exDoc4.old_data "Prospect" "Proposal Sent"
      "Sent proposal, pending approval." 20 "2025-06-30T00:00:00Z" =
      ⟨exSL4res, exDoc4res.old_data, true⟩ := by
    unfold udSteps
    rw [h1, h2, h3]
  rw [update_document_some exDoc4 exSL4 ("Prospect", "Proposal Sent") _ 20 _ rfl,
    hud]
  rfl

/-- C4 counterexample: a possible draw that keeps the lead status and moves
only the pipeline stage still writes a `lead_status` history entry — an
entry is written for a field whose proposed value equals its current value,
and `lead_status` appears as a history key though it never changed. -/
theorem update_document_joint_status_write :
    ("Prospect", "Proposal Sent") ∈ statusStageChoices ∧
    some "Prospect" = exSL4.lead_status ∧
    update_document exDoc4 ("Prospect", "Proposal Sent")
      "Sent proposal, pending approval." 20 "2025-06-30T00:00:00Z" =
      .ok (exDoc4res, true) ∧
    exDoc4res.sales_lead = some exSL4res ∧
    exSL4res.lead_status = exSL4.lead_status ∧
    exDoc4res.old_data "lead_status" =
      some ⟨.vStr "Prospect", "2025-06-30T00:00:00Z"⟩ ∧
    exDoc4.old_data "lead_status" = none :=
  ⟨by decide, rfl, update_document_exDoc4_eval, rfl, rfl, by decide, rfl⟩

/-- C4 amended: for the streamlit edit form, a history entry is written for
a field iff that field's proposed value differs from its current value, and
untracked keys are untouched; for `update_document` this per-field law
holds for `notes` and `lead_score`, but `lead_status` and `pipeline_stage`
entries are written jointly — each of the two gets an entry iff the drawn
pair differs in either member — so an unchanged member of the pair can
still acquire a history entry; all other keys are untouched. -/
theorem audit_entry_write_characterization :
    (∀ (sl : Lead) (p : ProposedFields) (base : ℤ) (H : History) (t : String)
        (k : String) (n o : JValue),
      (k, n, o) ∈ fields_to_check p (newScore p base) sl →
      (apply_edit sl p base H t).2.1 k = if n ≠ o then some ⟨o, t⟩ else H k) ∧
    (∀ (sl : Lead) (p : ProposedFields) (base : ℤ) (H : History) (t k : String),
      k ∉ (fields_to_check p (newScore p base) sl).map Prod.fst →
      (apply_edit sl p base H t).2.1 k = H k) ∧
    (∀ (doc : CouchDoc) (sl : SalesLeadRec) (draw : String × String)
        (note : String) (base : ℤ) (t : String) (d : CouchDoc) (c : Bool),
      doc.sales_lead = some sl →
      update_document doc draw note base t = .ok (d, c) →
      (d.old_data "lead_status" =
        if some draw.1 ≠ sl.lead_status ∨ some draw.2 ≠ sl.pipeline_stage
        then some ⟨optStrVal sl.lead_status, t⟩ else doc.old_data "lead_status") ∧
      (d.old_data "pipeline_stage" =
        if some draw.1 ≠ sl.lead_status ∨ some draw.2 ≠ sl.pipeline_stage
        then some ⟨optStrVal sl.pipeline_stage, t⟩
        else doc.old_data "pipeline_stage") ∧
      (d.old_data "notes" =
        if some note ≠ sl.notes then some ⟨optStrVal sl.notes, t⟩
        else doc.old_data "notes") ∧
      (d.old_data "lead_score" =
        if lead_score_weighted base (sl.last_deal_size_usd.getD 0) draw.1 draw.2
            (sl.crm_activity_flag.getD false) ≠ sl.lead_score.getD 0
        then some ⟨.vInt (sl.lead_score.getD 0), t⟩
        else doc.old_data "lead_score") ∧
      (∀ k : String, k ≠ "lead_status" → k ≠ "pipeline_stage" → k ≠ "notes" →
        k ≠ "lead_score" → d.old_data k = doc.old_data k)) := by
  refine ⟨?_, ?_, ?_⟩
  · intro sl p base H t k n o hmem
    unfold apply_edit
    dsimp only
    by_cases hb :
        (auditFold t (fields_to_check p (newScore p base) sl) (H, false)).2 = true
    · rw [if_pos hb]
      exact auditFold_fst_apply_of_mem t _ (H, false) k n o hmem
        (fields_to_check_fst_nodup _ _ _)
    · rw [if_neg hb]
      rw [auditFold_changed_iff] at hb
      push_neg at hb
      rw [if_neg (not_ne_iff.mpr (hb.2 _ hmem))]
  · intro sl p base H t k hk
    unfold apply_edit
    dsimp only
    split
    · exact auditFold_fst_apply_of_not_mem t _ (H, false) k hk
    · rfl
  · intro doc sl draw note base t d c hsl hok
    rw [update_document_some doc sl draw note base t hsl] at hok
    rcases hq : (udSteps sl doc.old_data draw.1 draw.2 note base t).sl.lead_score
      with _ | sc
    · rw [hq] at hok
      exact absurd hok (by simp)
    · rw [hq] at hok
      dsimp only at hok
      split at hok
      · rename_i hch
        simp only [Except.ok.injEq, Prod.mk.injEq] at hok
        obtain ⟨h1, -⟩ := hok
        subst h1
        exact ⟨udSteps_old_data_lead_status sl doc.old_data draw.1 draw.2 note
            base t,
          udSteps_old_data_pipeline_stage sl doc.old_data draw.1 draw.2 note
            base t,
          udSteps_old_data_notes sl doc.old_data draw.1 draw.2 note base t,
          udSteps_old_data_lead_score sl doc.old_data draw.1 draw.2 note base t,
          fun k h1 h2 h3 h4 =>
            udSteps_old_data_other sl doc.old_data draw.1 draw.2 note base t k
              h1 h2 h3 h4⟩
      · rename_i hch
        simp only [Except.ok.injEq, Prod.mk.injEq] at hok
        obtain ⟨h1, -⟩ := hok
        subst h1
        rw [udSteps_changed_iff] at hch
        push_neg at hch
        obtain ⟨hc1, hc2, hc3⟩ := hch
        have hc1n : ¬(some draw.1 ≠ sl.lead_status ∨ some draw.2 ≠ sl.pipeline_stage) :=
          not_or.mpr ⟨not_ne_iff.mpr hc1.1, not_ne_iff.mpr hc1.2⟩
        refine ⟨?_, ?_, ?_, ?_, fun k _ _ _ _ => rfl⟩
        · rw [if_neg hc1n]
        · rw [if_neg hc1n]
        · rw [if_neg (not_ne_iff.mpr hc2)]
        · rw [if_neg (not_ne_iff.mpr hc3)]

/-- C4 witness: the per-field law applied to a concrete edit (the notes
field of `exLead5`) and the joint law applied to the concrete
`update_document` run on `exDoc4`. -/
theorem audit_entry_write_characterization_witness :
    ((apply_edit exLead5 exProp5 20 emptyHistory "t").2.1 "notes" =
      if (JValue.vStr exProp5.notes) ≠ .vStr exLead5.notes
      then some ⟨.vStr exLead5.notes, "t"⟩ else emptyHistory "notes") ∧
    ((apply_edit exLead5 exProp5 20 emptyHistory "t").2.1 "ai_summary" =
      emptyHistory "ai_summary") ∧
    (exDoc4res.old_data "lead_status" =
      if some "Prospect" ≠ exSL4.lead_status ∨
          some "Proposal Sent" ≠ exSL4.pipeline_stage
      then some ⟨optStrVal exSL4.lead_status, "2025-06-30T00:00:00Z"⟩
      else exDoc4.old_data "lead_status") := by
  refine ⟨?_, ?_, ?_⟩
  · exact audit_entry_write_characterization.1 exLead5 exProp5 20 emptyHistory
      "t" "notes" (.vStr exProp5.notes) (.vStr exLead5.notes)
      (by simp [fields_to_check])
  · exact audit_entry_write_characterization.2.1 exLead5 exProp5 20 emptyHistory
      "t" "ai_summary" (by rw [fields_to_check_fst]; decide)
  · exact (audit_entry_write_characterization.2.2 exDoc4 exSL4
      ("Prospect", "Proposal Sent") "Sent proposal, pending approval." 20
      "2025-06-30T00:00:00Z" exDoc4res true rfl update_document_exDoc4_eval).1

end SalesCRM
